import Mathlib

/-!
Verification development for the manga downloader (src/manga.py).

Each definition below is a shallow embedding of a piece of the Python
source, translated directly from the code: pure computations become Lean
functions, the concurrent fetch pool becomes an explicit completion log,
filesystem effects become explicit state records, and fallible code
returns `Option`/`Except`.  Machine floats used for the resize arithmetic
are modelled by exact natural-number arithmetic, with Python `int(...)`
truncation on nonnegative values rendered as natural division (floor).
-/

/-! ## Image Normalizer: the resize/clamp arithmetic of `download_and_process`
(src/manga.py lines 273-303).  `target_width = 1600`, `MAX_DIMENSION = 65500`,
`MIN_DIMENSION = 4`.  The three clamp stages mirror the three source blocks. -/

/-- `ratio = target_width / original_width; new_height = int(original_height * ratio)`:
the initial (width, height) pair computed from the fixed preferred width 1600. -/
def initialDims (w h : Nat) : Nat × Nat := (1600, h * 1600 / w)

/-- First clamp block: `if new_height > MAX_DIMENSION: ratio = MAX_DIMENSION /
original_height; target_width = int(original_width * ratio); new_height = MAX_DIMENSION`. -/
def heightClamp (w h : Nat) (d : Nat × Nat) : Nat × Nat :=
  if 65500 < d.2 then (w * 65500 / h, 65500) else d

/-- Second clamp block: `if target_width > MAX_DIMENSION: ratio = MAX_DIMENSION /
original_width; target_width = MAX_DIMENSION; new_height = int(original_height * ratio)`. -/
def widthClamp (w h : Nat) (d : Nat × Nat) : Nat × Nat :=
  if 65500 < d.1 then (65500, h * 65500 / w) else d

/-- Final block: `target_width = max(min(target_width, MAX_DIMENSION), MIN_DIMENSION)`
and likewise for `new_height`. -/
def floorClamp (d : Nat × Nat) : Nat × Nat :=
  (max (min d.1 65500) 4, max (min d.2 65500) 4)

/-- The final dimensions produced by the normalization step of
`download_and_process` for a source image of size `w × h`. -/
def download_and_process_dims (w h : Nat) : Nat × Nat :=
  floorClamp (widthClamp w h (heightClamp w h (initialDims w h)))

/-! ## Deduplication (src/manga.py lines 593-595 and 451-453):
`seen = set(); unique_images = [x for x in images if not (x in seen or seen.add(x))]`. -/

/-- The list-comprehension loop: `seen` is the set of URLs already emitted. -/
def dedupGo (seen : List String) : List String → List String
  | [] => []
  | x :: xs => if seen.contains x then dedupGo seen xs else x :: dedupGo (x :: seen) xs

/-- `unique_images`: first-occurrence deduplication as written in the source. -/
def unique_images (l : List String) : List String := dedupGo [] l

/-- Specification-shaped dedup: keep the head, drop all of its later
duplicates, recurse.  Keeps exactly the first occurrence of each URL,
at its original position. -/
def dedupSpec : List String → List String
  | [] => []
  | x :: xs => x :: dedupSpec (xs.filter (fun y => !(y == x)))
termination_by l => l.length
decreasing_by
  simp only [List.length_cons]
  exact Nat.lt_succ_of_le (List.length_filter_le _ _)

/-! ## Per-URL retry loop of `download_and_process` (src/manga.py lines 255-319):
`max_retries = 3`; each attempt either yields an encoded image or fails; after
the last failed attempt the function returns `None`.  `attempt k` abstracts the
outcome of the k-th fetch/verify/normalize attempt for one URL. -/

/-- The `for attempt in range(max_retries)` loop: `n` attempts remaining,
`k` the current attempt number. -/
def downloadGo {α : Type} (attempt : Nat → Option α) : Nat → Nat → Option α
  | 0, _ => none
  | n + 1, k =>
    match attempt k with
    | some v => some v
    | none => downloadGo attempt n (k + 1)

/-- `download_and_process` as a per-URL outcome: the first success among
attempts 0, 1, 2, or `none` when the retry budget is exhausted. -/
def download_and_process {α : Type} (attempt : Nat → Option α) : Option α :=
  downloadGo attempt 3 0

/-! ## Concurrent collection loop of `generate_pdf_from_images`
(src/manga.py lines 322-333).  Futures are submitted in URL order
(`futures = [executor.submit(download_and_process, url) for url in urls]`);
the pool completes them in an arbitrary order, recording `(index, value)`
completion events; `for future in futures: result = future.result()` then reads
the futures back in submission order and aborts (raises `RuntimeError`) at the
first `None`. -/

/-- The completion log: tasks finish in the arbitrary order `order`
(a permutation of the submitted `(index, url)` tasks), each recording the
value computed from its own URL. -/
def eventLog {α : Type} (order : List (Nat × String)) (compute : String → α) :
    List (Nat × α) :=
  order.map (fun p => (p.1, compute p.2))

/-- `future.result()` for future `i`: look the completed value up in the log. -/
def futureResult {α : Type} (log : List (Nat × α)) (i : Nat) : Option α :=
  (log.find? (fun p => p.1 == i)).map (fun p => p.2)

/-- The collection loop: read futures back in submission order; a missing or
failed (`None`) result aborts the whole collection (`raise RuntimeError`). -/
def gatherImages {α : Type} (log : List (Nat × Option α)) :
    List (Nat × String) → Option (List α)
  | [] => some []
  | t :: ts =>
    match futureResult log t.1 with
    | some (some img) =>
      match gatherImages log ts with
      | some rest => some (img :: rest)
      | none => none
    | some none => none
    | none => none

/-- The image-collection stage of `generate_pdf_from_images`: `compute` is the
per-URL `download_and_process` outcome, `order` the completion order of the
pool.  A `none` result models the `RuntimeError` path: the exception is caught,
the function returns `None`, and no PDF file is written. -/
def generate_pdf_from_images {α : Type} (compute : String → Option α)
    (order : List (Nat × String)) (urls : List String) : Option (List α) :=
  gatherImages (eventLog order compute) urls.enum

/-! ## Per-chapter failure policy (src/manga.py lines 464-466 and 606-608).
`outcome c = true` means chapter `c`'s navigate/extract/persist block succeeds;
`false` means its `try` block raises. -/

/-- `run_xmanhua` chapter loop: on failure `logger.error(...); continue` —
the chapter is skipped and the loop proceeds.  Returns the chapters persisted,
in order. -/
def xmanhuaChapterLoop (outcome : Nat → Bool) : List Nat → List Nat
  | [] => []
  | c :: cs =>
    if outcome c then c :: xmanhuaChapterLoop outcome cs
    else xmanhuaChapterLoop outcome cs

/-- `run_8comic` chapter loop: on failure `logger.error(...); return None, False`
— the whole run aborts.  Returns the chapters persisted in order, paired with
`true` when the loop ran to completion and `false` when it aborted. -/
def comicChapterLoop (outcome : Nat → Bool) : List Nat → List Nat × Bool
  | [] => ([], true)
  | c :: cs =>
    if outcome c then
      let r := comicChapterLoop outcome cs
      (c :: r.1, r.2)
    else ([], false)

/-! ## Archive lifecycle (src/manga.py lines 515-516 and 622-642).
The on-disk state of one book, abstracted to what the lifecycle touches. -/

/-- On-disk state of a book: whether its root directory sits under the active
site-tag root, whether it sits under the `completed` root, which discovered
chapters currently have a document (PDF) artifact, and how many relocations
have been performed. -/
structure BookFS where
  underActive : Bool
  underCompleted : Bool
  pdfs : List Bool
  moves : Nat
deriving DecidableEq

/-- The per-chapter loop of `generate_pdf` (lines 624-630): for each URL-list
file (chapter `i`, counted from 0), if `overwrite` is set or the chapter's PDF
does not exist, call `generate_pdf_from_images` — whose return value the
caller ignores: on success the PDF file is written, on failure it returns
`None` and writes nothing, leaving the chapter's previous artifact state
unchanged — and the loop continues either way. -/
def pdfLoop (overwrite : Bool) (assembleOk : Nat → Bool) : Nat → List Bool → List Bool
  | _, [] => []
  | i, p :: ps =>
    (if (overwrite || !p) && assembleOk i then true else p) ::
      pdfLoop overwrite assembleOk (i + 1) ps

/-- `generate_pdf(result, website, overwrite, is_completed)`: if the active
image root exists, run the per-chapter assembly loop and the index page, then
— guarded only by `is_completed`, regardless of whether every assembly
succeeded — `shutil.move` the book root from the active root to the
`completed` root.  Otherwise log "Already completed." and do nothing. -/
def generatePdfStep (overwrite isCompleted : Bool) (assembleOk : Nat → Bool)
    (s : BookFS) : BookFS :=
  if s.underActive then
    let s1 : BookFS := { s with pdfs := pdfLoop overwrite assembleOk 0 s.pdfs }
    if isCompleted then
      { s1 with underActive := false, underCompleted := true, moves := s1.moves + 1 }
    else s1
  else s

/-- The lifecycle-relevant effect of `run_8comic`: if the source marks the book
completed and the completed root already exists, return early before any
`os.makedirs`; otherwise create the active-root directories and run discovery. -/
def run8comicStep (isCompleted : Bool) (s : BookFS) : BookFS :=
  if isCompleted && s.underCompleted then s
  else { s with underActive := true }

/-- One full invocation of `main`'s happy path for a book:
`run_8comic` then `generate_pdf`. -/
def orchestratorRun (overwrite isCompleted : Bool) (assembleOk : Nat → Bool)
    (s : BookFS) : BookFS :=
  generatePdfStep overwrite isCompleted assembleOk (run8comicStep isCompleted s)

/-! ## `run_xmanhua` chapter-list resolver (src/manga.py lines 381-391).
The loop enumerates the reversed chapter links from 1 and appends a chapter
when `overwrite or not os.path.exists(get_image_path(index, desired_text,
book_dir, is_completed))` holds.  The name `is_completed` is never bound in
`run_xmanhua` (line 377 assigns the misspelling `is_complted`), so whenever
`overwrite` is false the short-circuiting `or` evaluates its right operand and
Python raises `NameError`, modelled here as `Except.error ()`.  When
`overwrite` is true the right operand is skipped and every chapter is kept. -/

/-- The resolver loop of `run_xmanhua`, starting at index `idx`. -/
def resolveXmanhuaGo (overwrite : Bool) : Nat → List String → Except Unit (List (Nat × String))
  | _, [] => Except.ok []
  | idx, name :: rest =>
    if overwrite then
      match resolveXmanhuaGo overwrite (idx + 1) rest with
      | Except.ok l => Except.ok ((idx, name) :: l)
      | Except.error e => Except.error e
    else Except.error ()

/-- The pending-chapter resolver of `run_xmanhua`: enumerate the reversed
chapter links starting from 1. -/
def run_xmanhua_resolve (chapterNames : List String) (overwrite : Bool) :
    Except Unit (List (Nat × String)) :=
  resolveXmanhuaGo overwrite 1 chapterNames.reverse

/-! ## Artifact paths (src/manga.py lines 55-73).  `os.path.join` on relative
POSIX components is rendered as `++ "/" ++`. -/

/-- `f'{index:04d}'`: decimal rendering zero-padded to at least four digits. -/
def pad4 (n : Nat) : String :=
  let s := toString n
  String.mk (List.replicate (4 - s.length) '0') ++ s

/-- `get_root_path(chapter_dir, website) = os.path.join(website, chapter_dir)`. -/
def get_root_path (chapter_dir website : String) : String :=
  website ++ "/" ++ chapter_dir

/-- `get_image_root = os.path.join(get_root_path(...), f'{chapter_dir}-images')`. -/
def get_image_root (chapter_dir website : String) : String :=
  get_root_path chapter_dir website ++ "/" ++ (chapter_dir ++ "-images")

/-- `get_image_path = os.path.join(get_image_root(...),
f'ch{index:04d} - {chapter_name} - {chapter_dir}.txt')`. -/
def get_image_path (index : Nat) (chapter_name chapter_dir website : String) : String :=
  get_image_root chapter_dir website ++ "/" ++
    ("ch" ++ pad4 index ++ " - " ++ chapter_name ++ " - " ++ chapter_dir ++ ".txt")

/-- Modelled from the spec: the URL-list path exactly as §6 of the spec states
it, `<siteTag>/<bookDir>/<bookDir>-images/ch<4-digit-index> - <chapterName> -
<siteTag>.txt` — note the final segment ends with the site tag. -/
def specUrlListPath (index : Nat) (chapterName bookDir siteTag : String) : String :=
  siteTag ++ "/" ++ bookDir ++ "/" ++ bookDir ++ "-images" ++ "/" ++
    ("ch" ++ pad4 index ++ " - " ++ chapterName ++ " - " ++ siteTag ++ ".txt")

/-- The spec path amended to match the code: the final segment ends with the
book directory name, not the site tag. -/
def amendedUrlListPath (index : Nat) (chapterName bookDir siteTag : String) : String :=
  siteTag ++ "/" ++ bookDir ++ "/" ++ bookDir ++ "-images" ++ "/" ++
    ("ch" ++ pad4 index ++ " - " ++ chapterName ++ " - " ++ bookDir ++ ".txt")

/-! ## `main`'s unpacking of `run_xmanhua`'s result (src/manga.py line 690).
`result, is_completed = await run_xmanhua(...)` where `run_xmanhua` returns a
single value: the book-directory string or `None`.  Python iterable unpacking
of a string succeeds only when it has exactly two characters; `None` is not
iterable at all. -/

/-- Python errors raised by a failed two-target unpacking. -/
inductive UnpackError where
  | typeError
  | valueError
deriving DecidableEq

/-- `result, is_completed = <value>` for a value that is a string or `None`. -/
def mainUnpackXmanhua : Option String → Except UnpackError (String × String)
  | none => Except.error UnpackError.typeError
  | some s =>
    match s.data with
    | [a, b] => Except.ok (String.mk [a], String.mk [b])
    | _ => Except.error UnpackError.valueError

/-! ## `main`'s retry loop (src/manga.py lines 682-690):
`result = None; while not result: result, is_completed = await run_8comic(...)`.
`step k` is the pair returned by the k-th invocation of the scraping coroutine;
the loop keeps only its first component.  `fuel` bounds how many iterations we
observe: the loop has terminated within `fuel` iterations iff the result is
`some`. -/

/-- The `while not result` loop observed for `fuel` iterations, starting at
invocation `k`. -/
def whileNotResult (step : Nat → Option String × Bool) (k : Nat) : Nat → Option String
  | 0 => none
  | fuel + 1 =>
    match (step k).1 with
    | some r => some r
    | none => whileNotResult step (k + 1) fuel

/-! # Theorems -/

/-! ## Deduplication (claim C7) -/

theorem dedupGo_sublist (l : List String) : ∀ seen, (dedupGo seen l).Sublist l := by
  induction l with
  | nil => intro seen; simp [dedupGo]
  | cons x xs ih =>
    intro seen
    cases hc : seen.contains x with
    | true =>
      simp only [dedupGo, hc, if_true]
      exact (ih seen).cons x
    | false =>
      simp only [dedupGo, hc, Bool.false_eq_true, if_false]
      exact (ih (x :: seen)).cons₂ x

theorem dedupGo_eq_dedupSpec (l : List String) :
    ∀ seen, dedupGo seen l = dedupSpec (l.filter (fun y => !(seen.contains y))) := by
  induction l with
  | nil => intro seen; simp [dedupGo, dedupSpec]
  | cons x xs ih =>
    intro seen
    cases hc : seen.contains x with
    | true =>
      simp only [dedupGo, hc, if_true, List.filter_cons, Bool.not_true,
        Bool.false_eq_true, if_false]
      exact ih seen
    | false =>
      simp only [dedupGo, hc, Bool.false_eq_true, if_false, List.filter_cons,
        Bool.not_false, if_true]
      have hf : xs.filter (fun y => !((x :: seen).contains y))
          = (xs.filter (fun y => !(seen.contains y))).filter (fun y => !(y == x)) := by
        rw [List.filter_filter]
        apply List.filter_congr
        intro y _
        rw [List.contains_cons, Bool.not_or]
      rw [dedupSpec, ih (x :: seen), hf]

/-- C7: for every list of extracted image references, the deduplication step
`unique_images` keeps each URL at the position of its first occurrence and
drops later duplicates (it coincides with the specification-shaped `dedupSpec`
and is a sublist of its input), and on `["a","b","a","c"]` it yields
`["a","b","c"]`. -/
theorem dedup_preserves_first_occurrence :
    (∀ l : List String, unique_images l = dedupSpec l) ∧
    (∀ l : List String, (unique_images l).Sublist l) ∧
    unique_images ["a", "b", "a", "c"] = ["a", "b", "c"] := by
  refine ⟨fun l => ?_, fun l => dedupGo_sublist l [], by decide⟩
  rw [unique_images, dedupGo_eq_dedupSpec]
  congr 1
  simp

/-! ## `run_xmanhua` resolver NameError (claim C6) -/

/-- C6: the pending-chapter resolver of `run_xmanhua` does not implement the
claimed artifact-existence filter: with `overwrite` unset it raises `NameError`
on the very first chapter link, because line 389 reads `is_completed` while
line 377 only ever assigned the misspelling `is_complted`; with `overwrite`
set, the short-circuiting `or` skips the broken operand and every chapter is
kept unconditionally. -/
theorem xmanhua_resolver_raises_name_error :
    run_xmanhua_resolve ["ch1"] false = Except.error () ∧
    run_xmanhua_resolve ["ch1"] true = Except.ok [(1, "ch1")] := ⟨rfl, rfl⟩

/-! ## Artifact path layout (claim C8) -/

/-- C8 counterexample: at index 1, chapter name `"n"`, book directory `"B"`
and site tag `"S"`, the path the code builds ends in `- B.txt` (the book
directory), not `- S.txt` (the site tag) as the claim states. -/
theorem url_list_path_spec_mismatch :
    get_image_path 1 "n" "B" "S" ≠ specUrlListPath 1 "n" "B" "S" := by decide

/-- C8 amended: for every chapter index, chapter name, book directory and
site tag, the persisted URL-list file path equals
`<siteTag>/<bookDir>/<bookDir>-images/ch<4-digit-index> - <chapterName> -
<bookDir>.txt` — the final segment ends with the book directory name before
the `.txt` extension, not the site tag. -/
theorem url_list_path_amended (index : Nat) (chapterName bookDir siteTag : String) :
    get_image_path index chapterName bookDir siteTag =
      amendedUrlListPath index chapterName bookDir siteTag := by
  simp only [get_image_path, get_image_root, get_root_path, amendedUrlListPath,
    String.append_assoc]

/-! ## Unpacking `run_xmanhua`'s single return value (claim C9) -/

/-- C9: `run_xmanhua` returns a single value (the book-directory string or
`None`) while `main` unpacks it as `result, is_completed = ...`; for every
book-directory string whose length is not exactly two, the unpacking raises
`ValueError` at runtime instead of completing the run. -/
theorem xmanhua_result_unpack_fails (s : String) (h : s.length ≠ 2) :
    mainUnpackXmanhua (some s) = Except.error UnpackError.valueError := by
  obtain ⟨l⟩ := s
  rcases l with _ | ⟨a, _ | ⟨b, _ | ⟨c, rest⟩⟩⟩
  · rfl
  · rfl
  · exact absurd rfl h
  · rfl

/-- C9 witness: the concrete book directory `"abc"` has length 3, and the
unpacking fails with `ValueError`. -/
theorem xmanhua_result_unpack_fails_witness :
    ("abc" : String).length ≠ 2 ∧
    mainUnpackXmanhua (some "abc") = Except.error UnpackError.valueError :=
  ⟨by decide, xmanhua_result_unpack_fails "abc" (by decide)⟩

/-! ## `main`'s unbounded retry loop (claim C10) -/

/-- C10: if every invocation of the scraping coroutine returns a falsy result
(first component `None`, as `run_8comic` does when the book cannot be opened),
then for every finite iteration bound the `while not result` loop in `main`
has still not terminated — caller-level retries are unbounded and the process
never reaches a non-zero exit this way. -/
theorem main_retry_loop_unbounded (step : Nat → Option String × Bool)
    (h : ∀ k, (step k).1 = none) (k fuel : Nat) :
    whileNotResult step k fuel = none := by
  induction fuel generalizing k with
  | zero => rfl
  | succ n ih =>
    rw [whileNotResult, h k]
    exact ih (k + 1)

/-- C10 witness: with the coroutine permanently returning `(None, False)`, the
loop has not terminated after 1000 iterations. -/
theorem main_retry_loop_unbounded_witness :
    (∀ k, ((fun (_ : Nat) => ((none : Option String), false)) k).1 = none) ∧
    whileNotResult (fun (_ : Nat) => ((none : Option String), false)) 0 1000 = none :=
  ⟨fun _ => rfl, main_retry_loop_unbounded _ (fun _ => rfl) 0 1000⟩

/-! ## Per-chapter failure policy (claim C4) -/

/-- C4 counterexample: two chapters where only the first one fails.  In
`run_8comic`'s loop the failure is caught and the function returns
`None, False`: the run aborts (`false` flag) and the healthy second chapter is
never processed — refuting "processing proceeds to the next chapter" and "a
single bad chapter never aborts discovery for the whole book". -/
theorem run_8comic_chapter_failure_aborts :
    (comicChapterLoop (fun c => c == 2) [1, 2]).2 = false ∧
    2 ∉ (comicChapterLoop (fun c => c == 2) [1, 2]).1 := by decide

/-- C4 amended: a chapter failure is caught and logged in both adapters, but
only `run_xmanhua` continues with the next chapter (persisting exactly the
successful chapters, in order); in `run_8comic` a chapter failure makes the
whole run return failure, so the chapters persisted in that invocation are
exactly the successful chapters before the first failure. -/
theorem per_chapter_failure_policy (outcome : Nat → Bool) (cs : List Nat) :
    xmanhuaChapterLoop outcome cs = cs.filter outcome ∧
    comicChapterLoop outcome cs =
      (if cs.all outcome then (cs, true) else (cs.takeWhile outcome, false)) := by
  induction cs with
  | nil => exact ⟨rfl, rfl⟩
  | cons c cs ih =>
    cases hc : outcome c with
    | false =>
      constructor
      · simp [xmanhuaChapterLoop, hc, List.filter_cons, ih.1]
      · simp [comicChapterLoop, hc, List.all_cons, List.takeWhile_cons]
    | true =>
      constructor
      · simp [xmanhuaChapterLoop, hc, List.filter_cons, ih.1]
      · simp only [comicChapterLoop, hc, if_true, ih.2, List.all_cons,
          List.takeWhile_cons, Bool.true_and]
        cases h2 : cs.all outcome <;> simp [h2]

/-! ## Archive lifecycle (claim C5) -/

/-- C5 counterexample: a completed book with one discovered chapter whose PDF
is missing and whose assembly permanently fails (`generate_pdf_from_images`
returns `None`, which `generate_pdf` ignores).  The run still relocates the
book root to the completed root (one move performed) although the chapter's
document artifact was never produced — refuting "the archive-lifecycle
transition happens only after all document artifacts for the book are
produced". -/
theorem archive_moves_without_all_documents :
    (orchestratorRun false true (fun (_ : Nat) => false)
        ⟨true, false, [false], 0⟩).underCompleted = true ∧
    (orchestratorRun false true (fun (_ : Nat) => false)
        ⟨true, false, [false], 0⟩).moves = 1 ∧
    (orchestratorRun false true (fun (_ : Nat) => false)
        ⟨true, false, [false], 0⟩).pdfs = [false] :=
  ⟨rfl, rfl, rfl⟩

/-- C5 amended: for a book the source marks completed and not yet archived,
one orchestrator invocation runs the per-chapter assembly loop and then
relocates the book root: afterwards it exists under the completed root and
not under the active root; a second sequential invocation changes nothing
(the move counter stays at one); and `generate_pdf` performs the relocation
after the assembly loop and only when the source marks the book completed —
but not "only after all document artifacts are produced": the move is guarded
solely by the completed flag, so a chapter whose assembly failed is archived
without its document artifact (see the counterexample). -/
theorem archive_transition_amended (overwrite : Bool) (assembleOk : Nat → Bool)
    (s0 : BookFS) (h : s0.underCompleted = false) :
    (orchestratorRun overwrite true assembleOk s0).underCompleted = true ∧
    (orchestratorRun overwrite true assembleOk s0).underActive = false ∧
    (orchestratorRun overwrite true assembleOk s0).moves = s0.moves + 1 ∧
    orchestratorRun overwrite true assembleOk (orchestratorRun overwrite true assembleOk s0)
      = orchestratorRun overwrite true assembleOk s0 ∧
    (∀ (ow ic : Bool) (ok : Nat → Bool) (s : BookFS),
      (generatePdfStep ow ic ok s).moves ≠ s.moves →
        ic = true ∧ (generatePdfStep ow ic ok s).underActive = false ∧
        (generatePdfStep ow ic ok s).underCompleted = true ∧
        (generatePdfStep ow ic ok s).pdfs = pdfLoop ow ok 0 s.pdfs) := by
  obtain ⟨ua, uc, ps, m⟩ := s0
  have huc : uc = false := h
  subst huc
  refine ⟨rfl, rfl, rfl, rfl, ?_⟩
  intro ow ic ok s hm
  obtain ⟨ua2, uc2, ps2, m2⟩ := s
  cases ic <;> cases ua2 <;>
    first
      | exact absurd rfl hm
      | exact ⟨rfl, rfl, rfl, rfl⟩

/-- C5 witness for the amended theorem: a completed book under the active
root with one chapter lacking its PDF; after one invocation the book is
archived, and a second invocation performs no further move. -/
theorem archive_transition_amended_witness :
    (⟨true, false, [false], 0⟩ : BookFS).underCompleted = false ∧
    ((orchestratorRun false true (fun (_ : Nat) => true)
        ⟨true, false, [false], 0⟩).underCompleted = true ∧
      (orchestratorRun false true (fun (_ : Nat) => true)
        ⟨true, false, [false], 0⟩).underActive = false ∧
      (orchestratorRun false true (fun (_ : Nat) => true)
        ⟨true, false, [false], 0⟩).moves =
          (⟨true, false, [false], 0⟩ : BookFS).moves + 1 ∧
      orchestratorRun false true (fun (_ : Nat) => true)
          (orchestratorRun false true (fun (_ : Nat) => true) ⟨true, false, [false], 0⟩)
        = orchestratorRun false true (fun (_ : Nat) => true) ⟨true, false, [false], 0⟩ ∧
      (∀ (ow ic : Bool) (ok : Nat → Bool) (s : BookFS),
        (generatePdfStep ow ic ok s).moves ≠ s.moves →
          ic = true ∧ (generatePdfStep ow ic ok s).underActive = false ∧
          (generatePdfStep ow ic ok s).underCompleted = true ∧
          (generatePdfStep ow ic ok s).pdfs = pdfLoop ow ok 0 s.pdfs)) :=
  ⟨rfl, archive_transition_amended false (fun _ => true) ⟨true, false, [false], 0⟩ rfl⟩

/-! ## Normalizer dimension clamp (claim C1) -/

/-- C1: for every source image with positive dimensions whose width/height
lies strictly between 1600/65500 and 65500/1600 (the claim writes the two
bounding fractions in transposed positions; read as the evident non-empty
range), the normalization step of `download_and_process` produces final
dimensions within [4, 65500] on both axes, keeps the width at the preferred
1600 with the height the floor of the exact aspect-preserving value (aspect
ratio preserved within rounding), and consists exactly of the height-driven
correction, then the width-driven correction, then the floor of 4, in that
order. -/
theorem normalizer_dimension_clamp (w h : Nat) (hw : 0 < w) (hh : 0 < h)
    (hr1 : 1600 * h < 65500 * w) (hr2 : 1600 * w < 65500 * h) :
    (4 ≤ (download_and_process_dims w h).1 ∧ (download_and_process_dims w h).1 ≤ 65500 ∧
      4 ≤ (download_and_process_dims w h).2 ∧ (download_and_process_dims w h).2 ≤ 65500) ∧
    ((download_and_process_dims w h).1 = 1600 ∧
      (download_and_process_dims w h).2 * w ≤ h * 1600 ∧
      h * 1600 < ((download_and_process_dims w h).2 + 1) * w) ∧
    download_and_process_dims w h =
      floorClamp (widthClamp w h (heightClamp w h (initialDims w h))) := by
  have hlt : h * 1600 / w < 65500 := by
    rw [Nat.div_lt_iff_lt_mul hw]
    omega
  have hge : 4 ≤ h * 1600 / w := by
    rw [Nat.le_div_iff_mul_le hw]
    omega
  have e1 : heightClamp w h (initialDims w h) = (1600, h * 1600 / w) := by
    rw [initialDims, heightClamp]
    exact if_neg (Nat.not_lt.mpr hlt.le)
  have e2 : widthClamp w h (1600, h * 1600 / w) = (1600, h * 1600 / w) := by
    rw [widthClamp]
    exact if_neg (by norm_num)
  have e3 : floorClamp (1600, h * 1600 / w) = (1600, h * 1600 / w) := by
    rw [floorClamp]
    norm_num [Nat.min_eq_left hlt.le, Nat.max_eq_left hge]
  have hd : download_and_process_dims w h = (1600, h * 1600 / w) := by
    rw [download_and_process_dims, e1, e2, e3]
  rw [hd]
  refine ⟨⟨by norm_num, by norm_num, hge, hlt.le⟩,
    ⟨rfl, Nat.div_mul_le_self (h * 1600) w,
      (Nat.div_lt_iff_lt_mul hw).mp (Nat.lt_succ_self _)⟩, hd.symm⟩

/-- C1 witness: a square 1600 × 1600 image, whose width/height ratio lies in
the admissible range; the normalizer keeps it at 1600 × 1600. -/
theorem normalizer_dimension_clamp_witness :
    (0 < 1600 ∧ 1600 * 1600 < 65500 * 1600) ∧
    ((4 ≤ (download_and_process_dims 1600 1600).1 ∧
        (download_and_process_dims 1600 1600).1 ≤ 65500 ∧
        4 ≤ (download_and_process_dims 1600 1600).2 ∧
        (download_and_process_dims 1600 1600).2 ≤ 65500) ∧
      ((download_and_process_dims 1600 1600).1 = 1600 ∧
        (download_and_process_dims 1600 1600).2 * 1600 ≤ 1600 * 1600 ∧
        1600 * 1600 < ((download_and_process_dims 1600 1600).2 + 1) * 1600) ∧
      download_and_process_dims 1600 1600 =
        floorClamp (widthClamp 1600 1600 (heightClamp 1600 1600 (initialDims 1600 1600)))) :=
  ⟨⟨by decide, by decide⟩,
    normalizer_dimension_clamp 1600 1600 (by decide) (by decide) (by decide) (by decide)⟩

/-! ## Concurrent acquisition (claims C2 and C3) -/

theorem futureResult_eventLog {α : Type} (compute : String → α) :
    ∀ (order : List (Nat × String)) (i : Nat) (u : String),
      (order.map Prod.fst).Nodup → (i, u) ∈ order →
      futureResult (eventLog order compute) i = some (compute u) := by
  intro order
  induction order with
  | nil => intro i u _ hm; simp at hm
  | cons p os ih =>
    intro i u hnd hm
    obtain ⟨j, v⟩ := p
    rw [List.map_cons] at hnd
    simp only [eventLog, List.map_cons]
    cases hji : (j == i) with
    | true =>
      have hj : j = i := beq_iff_eq.mp hji
      rw [futureResult, List.find?_cons_of_pos _ (by simpa using hji)]
      have huv : u = v := by
        rcases List.mem_cons.mp hm with heq | hmem
        · exact congrArg Prod.snd heq
        · have hin : i ∈ os.map Prod.fst := List.mem_map_of_mem Prod.fst hmem
          have hnotin : j ∉ os.map Prod.fst := (List.nodup_cons.mp hnd).1
          rw [hj] at hnotin
          exact absurd hin hnotin
      rw [huv]
      rfl
    | false =>
      have hji2 : j ≠ i := fun he => by simp [he] at hji
      rw [futureResult, List.find?_cons_of_neg _ (by simpa using hji2)]
      have hmem : (i, u) ∈ os := by
        rcases List.mem_cons.mp hm with heq | hmem
        · exact absurd (congrArg Prod.fst heq).symm hji2
        · exact hmem
      exact ih i u (List.nodup_cons.mp hnd).2 hmem

theorem order_keys_nodup (urls : List String) (order : List (Nat × String))
    (hperm : order.Perm urls.enum) : (order.map Prod.fst).Nodup := by
  have h2 : (urls.enum.map Prod.fst).Nodup := by
    rw [List.enum_map_fst]
    exact List.nodup_range _
  exact ((hperm.map Prod.fst).nodup_iff).mpr h2

theorem gather_eq_map {α : Type} (log : List (Nat × Option α)) (f : String → α) :
    ∀ tasks : List (Nat × String),
      (∀ t ∈ tasks, futureResult log t.1 = some (some (f t.2))) →
      gatherImages log tasks = some (tasks.map (fun t => f t.2)) := by
  intro tasks
  induction tasks with
  | nil => intro _; rfl
  | cons t ts ih =>
    intro hall
    have h1 := hall t (List.mem_cons_self t ts)
    rw [gatherImages, h1, ih (fun t2 ht2 => hall t2 (List.mem_cons_of_mem t ht2))]
    rfl

theorem gather_some_mem {α : Type} (log : List (Nat × Option α)) :
    ∀ (tasks : List (Nat × String)) (res : List α),
      gatherImages log tasks = some res →
      ∀ t ∈ tasks, ∃ v : α, futureResult log t.1 = some (some v) := by
  intro tasks
  induction tasks with
  | nil => intro res _ t ht; simp at ht
  | cons t0 ts ih =>
    intro res hres t ht
    rw [gatherImages] at hres
    cases hf : futureResult log t0.1 with
    | none => rw [hf] at hres; simp at hres
    | some o =>
      cases o with
      | none => rw [hf] at hres; simp at hres
      | some img =>
        rw [hf] at hres
        cases hg : gatherImages log ts with
        | none => rw [hg] at hres; simp at hres
        | some rest =>
          rcases List.mem_cons.mp ht with heq | hmem
          · subst heq; exact ⟨img, hf⟩
          · exact ih rest hg t hmem

theorem exists_mem_enumFrom {α : Type} (u : α) :
    ∀ (l : List α) (n : Nat), u ∈ l → ∃ i, (i, u) ∈ l.enumFrom n := by
  intro l
  induction l with
  | nil => intro n hmem; simp at hmem
  | cons x xs ih =>
    intro n hmem
    rcases List.mem_cons.mp hmem with heq | hmem2
    · exact ⟨n, heq ▸ List.mem_cons_self _ _⟩
    · obtain ⟨i, hi⟩ := ih (n + 1) hmem2
      exact ⟨i, List.mem_cons_of_mem _ hi⟩

/-- C2: when every URL's fetch succeeds, the list of encoded images collected
by `generate_pdf_from_images` — and hence the page order of the assembled
document — equals the input URL order, for every completion order of the
concurrent per-URL tasks (any permutation of the submitted tasks). -/
theorem acquire_preserves_input_order {α : Type} (urls : List String)
    (norm : String → α) (order : List (Nat × String)) (hperm : order.Perm urls.enum) :
    generate_pdf_from_images (fun u => some (norm u)) order urls
      = some (urls.map norm) := by
  have hkeys := order_keys_nodup urls order hperm
  have hmain : gatherImages (eventLog order (fun u => some (norm u))) urls.enum
      = some (urls.enum.map (fun t => norm t.2)) := by
    apply gather_eq_map
    intro t ht
    obtain ⟨i, u⟩ := t
    exact futureResult_eventLog (fun u => some (norm u)) order i u hkeys
      (hperm.mem_iff.mpr ht)
  rw [generate_pdf_from_images, hmain]
  congr 1
  rw [show (fun t : Nat × String => norm t.2) = norm ∘ Prod.snd from rfl,
    ← List.map_map, List.enum_map_snd]

/-- C2 witness: two URLs whose tasks complete in reversed order; the collected
images still follow the input URL order. -/
theorem acquire_preserves_input_order_witness :
    ([((1 : Nat), "b"), (0, "a")]).Perm ((["a", "b"] : List String).enum) ∧
    generate_pdf_from_images (fun u => some (String.length u)) [(1, "b"), (0, "a")]
        ["a", "b"]
      = some ((["a", "b"] : List String).map String.length) :=
  ⟨by decide,
    acquire_preserves_input_order ["a", "b"] String.length [(1, "b"), (0, "a")] (by decide)⟩

/-- C3: if any one URL exhausts its per-URL retry budget (all three attempts
fail, so `download_and_process` returns `None`), then for every completion
order the whole collection in `generate_pdf_from_images` fails: the result is
`None` (the `RuntimeError` is caught, no partial image list survives, and no
PDF artifact is written for the chapter). -/
theorem acquisition_all_or_nothing {α : Type} (urls : List String)
    (attempts : String → Nat → Option α) (order : List (Nat × String))
    (hperm : order.Perm urls.enum) (u : String) (hu : u ∈ urls)
    (hfail : ∀ k, attempts u k = none) :
    generate_pdf_from_images (fun v => download_and_process (attempts v)) order urls
      = none := by
  have hdl : download_and_process (attempts u) = none := by
    simp [download_and_process, downloadGo, hfail]
  obtain ⟨i, hi⟩ := exists_mem_enumFrom u urls 0 hu
  have hienum : (i, u) ∈ urls.enum := hi
  have hfr : futureResult (eventLog order (fun v => download_and_process (attempts v))) i
      = some (download_and_process (attempts u)) :=
    futureResult_eventLog _ order i u (order_keys_nodup urls order hperm)
      (hperm.mem_iff.mpr hienum)
  rw [generate_pdf_from_images]
  cases hres : gatherImages (eventLog order (fun v => download_and_process (attempts v)))
      urls.enum with
  | none => rfl
  | some res =>
    obtain ⟨v, hv⟩ := gather_some_mem _ urls.enum res hres (i, u) hienum
    rw [hfr, hdl] at hv
    simp at hv

/-- C3 witness: of two URLs, `"b"` fails all its attempts; the collection
returns `None`. -/
theorem acquisition_all_or_nothing_witness :
    ("b" : String) ∈ (["a", "b"] : List String) ∧
    (∀ k, (fun (v : String) (_ : Nat) => if v = "a" then some 1 else (none : Option Nat))
        "b" k = none) ∧
    generate_pdf_from_images
        (fun v => download_and_process
          ((fun (v : String) (_ : Nat) => if v = "a" then some 1 else (none : Option Nat)) v))
        [(0, "a"), (1, "b")] ["a", "b"]
      = none :=
  ⟨by decide, fun _ => rfl,
    acquisition_all_or_nothing ["a", "b"]
      (fun v _ => if v = "a" then some 1 else none)
      [(0, "a"), (1, "b")] (by decide) "b" (by decide) (fun _ => rfl)⟩
